import Mathlib

/-!
Verification of the cookie-translation and process-handling logic of the
Deno-based JS execution bridge (`yt_dlp/jsinterp/_deno.py`) and of the
Faulio live-stream extractor (`yt_dlp/extractor/faulio.py`).

Python strings are `String`, Python `None`/absent dict keys are `none`,
Python dict/list/string truthiness is made explicit at each use site.
-/

namespace Ytdl

/-- A host-side cookie (`http.cookiejar.Cookie`), restricted to the fields that
`_deno.py` reads or writes.  `expires` is epoch seconds, `none` when absent.
The remaining constructor arguments of `http.cookiejar.Cookie` (version, port,
`domain_specified`, `path_specified`, discard, comment, rest) are constants at
the single construction site in `apply_cookies` and are not referenced by any
claim, so they are not carried here. -/
structure Cookie where
  name : String
  value : String
  domain : String
  domain_initial_dot : Bool
  path : String
  secure : Bool
  expires : Option Int
  deriving Repr, DecidableEq

/-- A tough-cookie JSON record, the library-bound cookie shape
`{key, value, domain, expires, hostOnly, secure, path}`.  Each field is
`Option` because `apply_cookies` reads incoming records with `dict.get`
(absent keys and JSON `null` both become `none`). -/
structure CookieRecord where
  key : Option String
  value : Option String
  domain : Option String
  expires : Option Int
  hostOnly : Option Bool
  secure : Option Bool
  path : Option String
  deriving Repr, DecidableEq

/-- Python `s.lstrip('.')`: remove every leading dot. -/
def lstripDots (s : String) : String :=
  String.mk (s.data.dropWhile (fun c => c = '.'))

/-- Python string concatenation `'.' + s` as used in `apply_cookies`. -/
def dotConcat (s : String) : String :=
  String.mk ('.' :: s.data)

/-- Python truthiness of an optional string: absent and empty are falsy. -/
def truthyS : Option String → Bool
  | none => false
  | some s => !(s == "")

/-- Python truthiness of an optional bool: absent is falsy. -/
def truthyB : Option Bool → Bool
  | none => false
  | some b => b

/-- `yt_dlp.utils.int_or_none` at the call shape used here:
`int(v) * invscale // scale` with `scale = 1`, propagating `None`. -/
def int_or_none (v : Option Int) (invscale : Int) : Option Int :=
  v.map (fun n => n * invscale)

/-- The tough-cookie record that `DenoJSDomJSI.serialize_cookie` builds for one
cookie: the leading dots of the domain are stripped (falling back to the scope
URL's hostname when the result is empty), `expires` is scaled by 1000 via
`int_or_none(cookie.expires, invscale=1000)`, and `hostOnly` is the negation of
`domain_initial_dot`. -/
def toughRecord (hostname : Option String) (c : Cookie) : CookieRecord :=
  { key := some c.name
    value := some c.value
    domain := if lstripDots c.domain = "" then hostname else some (lstripDots c.domain)
    expires := int_or_none c.expires 1000
    hostOnly := some (!c.domain_initial_dot)
    secure := some c.secure
    path := some c.path }

/-- `DenoJSDomJSI.serialize_cookie`, at the level of the record list inside the
emitted `{"cookies": [...]}` JSON object.  `if not cookiejar` is Python
truthiness: an absent jar and an empty jar both yield no records.  The
`get_cookies_for_url` URL filtering happens in the host framework's cookie jar,
so the already-scoped cookie list is the input here, together with
`urllib.parse.urlparse(url).hostname`. -/
def serialize_cookie (cookiejar : Option (List Cookie)) (hostname : Option String) :
    List CookieRecord :=
  match cookiejar with
  | none => []
  | some cookies =>
    if cookies.isEmpty then []
    else (cookies.filter (fun c => c.value != "")).map (toughRecord hostname)

/-- Modelled from the spec: "expiry parsed from the given timestamp (absent if
unparsable or missing)".  The parser itself (`yt_dlp.utils.unified_timestamp`)
is outside `src/`; a present timestamp is taken at face value and a missing one
gives `none`.  No claim examines the parsed expiry value. -/
def unified_timestamp (v : Option Int) : Option Int := v

/-- The record filter of `apply_cookies`:
`all(cookie_dict.get(k) for k in ('key', 'value', 'domain'))`. -/
def keepRecord (r : CookieRecord) : Bool :=
  truthyS r.key && truthyS r.value && truthyS r.domain

/-- The `http.cookiejar.Cookie` that `apply_cookies` constructs from one kept
record: a host-only record keeps the dot-stripped domain, any other record gets
exactly one leading dot; `path` defaults to `"/"` only when the key is absent;
`domain_initial_dot` is the negation of the record's (truthy) `hostOnly`. -/
def cookieFromRecord (r : CookieRecord) : Cookie :=
  let hostOnly := truthyB r.hostOnly
  let d := lstripDots (r.domain.getD "")
  { name := r.key.getD ""
    value := r.value.getD ""
    domain := if hostOnly then d else dotConcat d
    domain_initial_dot := !hostOnly
    path := r.path.getD "/"
    secure := truthyB r.secure
    expires := unified_timestamp r.expires }

/-- The loop of `apply_cookies`: records failing `keepRecord` are skipped with
`continue`, every other record is turned into a cookie and set, in order. -/
def appliedCookies : List CookieRecord → List Cookie
  | [] => []
  | r :: rest =>
    if keepRecord r then cookieFromRecord r :: appliedCookies rest
    else appliedCookies rest

/-- `DenoJSDomJSI.apply_cookies`.  `if not cookiejar: return` is Python
truthiness, so both an absent jar and an empty jar are left untouched and no
record is processed; otherwise every kept record is set into the jar
(`set_cookie` insertion is modelled as appending in loop order). -/
def apply_cookies (cookiejar : Option (List Cookie)) (cookies : List CookieRecord) :
    Option (List Cookie) :=
  match cookiejar with
  | none => none
  | some jar =>
    if jar.isEmpty then some jar
    else some (jar ++ appliedCookies cookies)

theorem dropWhile_dropWhile (p : Char → Bool) (l : List Char) :
    (l.dropWhile p).dropWhile p = l.dropWhile p := by
  induction l with
  | nil => rfl
  | cons a l ih =>
    by_cases h : p a
    · simp [List.dropWhile_cons, h, ih]
    · simp [List.dropWhile_cons, h]

theorem lstripDots_idem (s : String) : lstripDots (lstripDots s) = lstripDots s := by
  simp [lstripDots, dropWhile_dropWhile]

theorem lstripDots_dotConcat (s : String) :
    lstripDots (dotConcat s) = lstripDots s := by
  simp [lstripDots, dotConcat, List.dropWhile_cons]

theorem appliedCookies_of_keep (rs : List CookieRecord) (h : ∀ r ∈ rs, keepRecord r) :
    appliedCookies rs = rs.map cookieFromRecord := by
  induction rs with
  | nil => rfl
  | cons r rest ih =>
    have hr : keepRecord r := h r (List.mem_cons_self r rest)
    simp [appliedCookies, hr, ih (fun x hx => h x (List.mem_cons_of_mem r hx))]

theorem appliedCookies_filter (rs : List CookieRecord) :
    appliedCookies rs = (rs.filter keepRecord).map cookieFromRecord := by
  induction rs with
  | nil => rfl
  | cons r rest ih =>
    by_cases hr : keepRecord r
    · simp [appliedCookies, hr, List.filter_cons, ih]
    · simp [appliedCookies, hr, List.filter_cons, ih]

/-- C1 (amended): for a non-empty target jar and a cookie set in which every
cookie has a non-empty name, a non-empty value and a domain that is non-empty
after stripping leading dots, translating host→library with `serialize_cookie`
and back with `apply_cookies` appends to the jar, for each cookie in order, a
reconstructed cookie with the same name, value and path, and with the same
effective domain: same dot-stripped domain and same initial-dot flag (the
leading dot itself is re-normalized from the host-only flag). -/
theorem C1_round_trip (jar cs : List Cookie) (hostname : Option String)
    (hjar : jar ≠ [])
    (h : ∀ c ∈ cs, c.name ≠ "" ∧ c.value ≠ "" ∧ lstripDots c.domain ≠ "") :
    apply_cookies (some jar) (serialize_cookie (some cs) hostname)
      = some (jar ++ cs.map (fun c => cookieFromRecord (toughRecord hostname c))) ∧
    ∀ c ∈ cs,
      (cookieFromRecord (toughRecord hostname c)).name = c.name ∧
      (cookieFromRecord (toughRecord hostname c)).value = c.value ∧
      (cookieFromRecord (toughRecord hostname c)).path = c.path ∧
      lstripDots (cookieFromRecord (toughRecord hostname c)).domain = lstripDots c.domain ∧
      (cookieFromRecord (toughRecord hostname c)).domain_initial_dot = c.domain_initial_dot := by
  obtain ⟨a, t, rfl⟩ := List.exists_cons_of_ne_nil hjar
  constructor
  · cases cs with
    | nil => simp [serialize_cookie, apply_cookies, appliedCookies]
    | cons c0 cs0 =>
      have hfilter : (c0 :: cs0).filter (fun c => c.value != "") = c0 :: cs0 := by
        rw [List.filter_eq_self]
        intro c hc
        simpa using (h c hc).2.1
      have hkeep : ∀ r ∈ (c0 :: cs0).map (toughRecord hostname), keepRecord r := by
        intro r hr
        obtain ⟨c, hc, rfl⟩ := List.mem_map.mp hr
        obtain ⟨hn, hv, hd⟩ := h c hc
        simp [keepRecord, toughRecord, truthyS, hn, hv, hd]
      simp only [serialize_cookie, apply_cookies, List.isEmpty_cons, hfilter,
        if_neg Bool.false_ne_true]
      rw [appliedCookies_of_keep _ hkeep, List.map_map]
      simp [Function.comp]
  · intro c hc
    obtain ⟨hn, hv, hd⟩ := h c hc
    cases hb : c.domain_initial_dot <;>
      simp [cookieFromRecord, toughRecord, truthyB, unified_timestamp, hd,
        lstripDots_idem, lstripDots_dotConcat, hb]

/-- C1 witness: the round trip evaluated on one concrete well-formed cookie
appended to a concrete non-empty jar. -/
theorem C1_round_trip_witness :
    apply_cookies (some [⟨"a", "b", "c.org", false, "/", false, none⟩])
        (serialize_cookie (some [⟨"n", "v", "example.com", false, "/", false, some 3⟩])
          (some "example.com"))
      = some ([⟨"a", "b", "c.org", false, "/", false, none⟩] ++
          [(⟨"n", "v", "example.com", false, "/", false, some 3⟩ : Cookie)].map
            (fun c => cookieFromRecord (toughRecord (some "example.com") c))) :=
  (C1_round_trip [⟨"a", "b", "c.org", false, "/", false, none⟩]
    [⟨"n", "v", "example.com", false, "/", false, some 3⟩] (some "example.com")
    (by decide) (by decide)).1

/-- C1 counterexample: the claim only excludes empty values, but a cookie with
empty name and non-empty value "v" is serialized with `key = ""` and then
silently skipped by `apply_cookies`, so the resulting jar (here a disjoint
non-empty jar) contains no cookie whose value is "v": the cookie's name, value,
domain and path are not reproduced at all. -/
theorem C1_counterexample :
    apply_cookies (some [⟨"other", "w", "other.org", false, "/", false, none⟩])
        (serialize_cookie (some [⟨"", "v", "example.com", false, "/", false, none⟩])
          (some "example.com"))
      = some [⟨"other", "w", "other.org", false, "/", false, none⟩] ∧
    ("v" : String) ≠ "w" ∧ ("v" : String) ≠ "" := by decide

/-- C2 (amended): for every cookie with non-empty value, `serialize_cookie`
emits its record, whose domain is the cookie's domain with leading dots
stripped (falling back to the scope URL hostname when that is empty), whose
`expires` is the cookie's expiry converted to epoch milliseconds (seconds
scaled by 1000) and absent exactly when the cookie has no expiry, whose
`hostOnly` flag is the negation of the cookie's `domain_initial_dot` attribute,
and whose secure flag and path equal the cookie's. -/
theorem C2_serialized_fields (cs : List Cookie) (hostname : Option String) (c : Cookie)
    (hc : c ∈ cs) (hv : c.value ≠ "") :
    toughRecord hostname c ∈ serialize_cookie (some cs) hostname ∧
    (toughRecord hostname c).key = some c.name ∧
    (toughRecord hostname c).value = some c.value ∧
    (toughRecord hostname c).domain
      = (if lstripDots c.domain = "" then hostname else some (lstripDots c.domain)) ∧
    (toughRecord hostname c).expires = c.expires.map (fun n => n * 1000) ∧
    ((toughRecord hostname c).expires = none ↔ c.expires = none) ∧
    (toughRecord hostname c).hostOnly = some (!c.domain_initial_dot) ∧
    (toughRecord hostname c).secure = some c.secure ∧
    (toughRecord hostname c).path = some c.path := by
  refine ⟨?_, rfl, rfl, rfl, rfl, ?_, rfl, rfl, rfl⟩
  · cases cs with
    | nil => cases hc
    | cons c0 cs0 =>
      simp only [serialize_cookie, List.isEmpty_cons, if_neg Bool.false_ne_true]
      exact List.mem_map_of_mem _ (List.mem_filter.mpr ⟨hc, by simpa using hv⟩)
  · simp [toughRecord, int_or_none, Option.map_eq_none']

/-- C2 witness: membership of the serialized record for one concrete cookie. -/
theorem C2_serialized_fields_witness :
    toughRecord (some "h.org") ⟨"n", "v", ".d.com", true, "/p", true, some 7⟩
      ∈ serialize_cookie (some [⟨"n", "v", ".d.com", true, "/p", true, some 7⟩]) (some "h.org") :=
  (C2_serialized_fields [⟨"n", "v", ".d.com", true, "/p", true, some 7⟩] (some "h.org")
    ⟨"n", "v", ".d.com", true, "/p", true, some 7⟩ (by decide) (by decide)).1

/-- C2 counterexample: a cookie expiring at epoch second 5 is serialized with
`expires = 5000` (milliseconds, via `int_or_none(..., invscale=1000)`), not 5
as the claim's "expiry in epoch seconds" requires. -/
theorem C2_counterexample :
    serialize_cookie (some [⟨"n", "v", "example.com", false, "/", false, some 5⟩])
        (some "example.com")
      = [⟨some "n", some "v", some "example.com", some 5000, some true, some false, some "/"⟩] ∧
    (5000 : Int) ≠ 5 := by decide

/-- C3: every record emitted by `serialize_cookie` (for any jar and hostname)
carries a non-empty value, and stems from a cookie of the jar having exactly
that non-empty value: cookies with empty value never reach the library-bound
list. -/
theorem C3_no_empty_value_serialized (cookiejar : Option (List Cookie))
    (hostname : Option String) (r : CookieRecord)
    (hr : r ∈ serialize_cookie cookiejar hostname) :
    ∃ v, r.value = some v ∧ v ≠ "" ∧
      ∃ cs, cookiejar = some cs ∧
        ∃ c ∈ cs, c.value = v ∧ r = toughRecord hostname c := by
  match cookiejar with
  | none => cases hr
  | some cs =>
    match cs with
    | [] => cases hr
    | c0 :: cs0 =>
      simp only [serialize_cookie, List.isEmpty_cons, if_neg Bool.false_ne_true] at hr
      obtain ⟨c, hcf, rfl⟩ := List.mem_map.mp hr
      obtain ⟨hc, hcv⟩ := List.mem_filter.mp hcf
      exact ⟨c.value, rfl, by simpa using hcv, c0 :: cs0, rfl, c, hc, rfl, rfl⟩

/-- C3 witness: the single record serialized from a concrete one-cookie jar. -/
theorem C3_no_empty_value_serialized_witness :
    ∃ v, (toughRecord (some "h") ⟨"n", "v", "d.com", false, "/", false, none⟩).value = some v ∧
      v ≠ "" ∧
      ∃ cs, (some [(⟨"n", "v", "d.com", false, "/", false, none⟩ : Cookie)]
              : Option (List Cookie)) = some cs ∧
        ∃ c ∈ cs, c.value = v ∧
          toughRecord (some "h") ⟨"n", "v", "d.com", false, "/", false, none⟩
            = toughRecord (some "h") c :=
  C3_no_empty_value_serialized (some [⟨"n", "v", "d.com", false, "/", false, none⟩])
    (some "h") (toughRecord (some "h") ⟨"n", "v", "d.com", false, "/", false, none⟩)
    (by decide)

/-- C4 (amended): on a non-empty target jar, `apply_cookies` behaves on any
record list exactly as on the sublist of records having truthy key, value and
domain: skipped records add no cookie and do not affect the others.  (On a
falsy — absent or empty — jar the Python truthiness guard `if not cookiejar`
makes the whole call a no-op instead.) -/
theorem C4_skip_missing_fields (jar : List Cookie) (rs : List CookieRecord)
    (hjar : jar ≠ []) :
    apply_cookies (some jar) rs = apply_cookies (some jar) (rs.filter keepRecord) ∧
    apply_cookies (some jar) rs
      = some (jar ++ (rs.filter keepRecord).map cookieFromRecord) := by
  obtain ⟨a, t, rfl⟩ := List.exists_cons_of_ne_nil hjar
  constructor
  · simp [apply_cookies, appliedCookies_filter, List.filter_filter]
  · simp [apply_cookies, appliedCookies_filter]

/-- C4 witness: one kept and one skipped record against a concrete jar. -/
theorem C4_skip_missing_fields_witness :
    apply_cookies (some [⟨"a", "b", "c.org", false, "/", false, none⟩])
        [⟨some "k", some "v", some "d.com", none, none, none, some "/"⟩,
         ⟨none, some "v2", some "d2.com", none, none, none, none⟩]
      = some ([⟨"a", "b", "c.org", false, "/", false, none⟩] ++
          ([⟨some "k", some "v", some "d.com", none, none, none, some "/"⟩,
            ⟨none, some "v2", some "d2.com", none, none, none, none⟩].filter
              keepRecord).map cookieFromRecord) :=
  (C4_skip_missing_fields [⟨"a", "b", "c.org", false, "/", false, none⟩]
    [⟨some "k", some "v", some "d.com", none, none, none, some "/"⟩,
     ⟨none, some "v2", some "d2.com", none, none, none, none⟩] (by decide)).2

/-- C4 counterexample: a record with truthy key, value and domain is still not
processed when the supplied jar is empty — `if not cookiejar: return` treats an
empty jar like an absent one, so "processes all remaining records" fails. -/
theorem C4_counterexample :
    apply_cookies (some ([] : List Cookie))
        [⟨some "k", some "v", some "d.com", none, none, none, some "/"⟩] = some [] ∧
    keepRecord ⟨some "k", some "v", some "d.com", none, none, none, some "/"⟩ = true := by
  decide

/-- Outcome of one `DenoJSI._run_deno` call once the spawned process has
finished: the warnings reported and either the error raised or the value
returned.  Spawning itself (the `try` around `Popen.run`) is host I/O and out
of scope. -/
structure DenoRun where
  warnings : List String
  result : Except String String
  deriving Repr

/-- `DenoJSI._run_deno` on a finished process with the given captured streams
and return code: a non-zero return code raises an `ExtractorError` whose
message embeds the captured stderr; a zero return code reports a warning when
stderr is non-empty and returns the stripped stdout (`str.strip` is modelled by
`String.trim`). -/
def run_deno (stdout stderr : String) (returncode : Int) : DenoRun :=
  if returncode ≠ 0 then
    { warnings := []
      result := .error ("Failed with returncode " ++ toString returncode ++ ":\n" ++ stderr) }
  else if stderr ≠ "" then
    { warnings := ["JS console error msg:\n" ++ stderr.trim], result := .ok stdout.trim }
  else
    { warnings := [], result := .ok stdout.trim }

/-- C5: `_run_deno` fails exactly on a non-zero return code — regardless of
stdout — with the captured stderr text embedded in the error; on a zero return
code it returns the stripped stdout, reporting (only) a warning when stderr is
non-empty. -/
theorem C5_run_deno_errors (stdout stderr : String) (returncode : Int) :
    ((∃ m, (run_deno stdout stderr returncode).result = .error m) ↔ returncode ≠ 0) ∧
    (returncode ≠ 0 →
      ∃ p, (run_deno stdout stderr returncode).result = .error (p ++ stderr)) ∧
    (returncode = 0 →
      (run_deno stdout stderr returncode).result = .ok stdout.trim ∧
      (run_deno stdout stderr returncode).warnings
        = if stderr ≠ "" then ["JS console error msg:\n" ++ stderr.trim] else []) := by
  by_cases hrc : returncode = 0
  · subst hrc
    by_cases hs : stderr = ""
    · simp [run_deno, hs]
    · simp [run_deno, hs]
  · have hres : (run_deno stdout stderr returncode).result
        = .error ("Failed with returncode " ++ toString returncode ++ ":\n" ++ stderr) := by
      unfold run_deno
      rw [if_pos hrc]
    exact ⟨⟨fun _ => hrc, fun _ => ⟨_, hres⟩⟩,
      fun _ => ⟨"Failed with returncode " ++ toString returncode ++ ":\n", hres⟩,
      fun h0 => absurd h0 hrc⟩

/-- C5 witness: a failing run embeds "boom" in its error, and a succeeding run
returns the stripped stdout. -/
theorem C5_run_deno_errors_witness :
    (∃ p, (run_deno "ignored" "boom" 1).result = .error (p ++ "boom")) ∧
    (run_deno "  out  " "boom" 0).result = .ok ("  out  ".trim) :=
  ⟨(C5_run_deno_errors "ignored" "boom" 1).2.1 (by decide),
   ((C5_run_deno_errors "  out  " "boom" 0).2.2 rfl).1⟩

/-- The structured output contract of the DOM-mode script: a single JSON object
`{"stdout": string, "cookies": [cookie...]}`. -/
structure DenoData where
  stdout : String
  cookies : List CookieRecord
  deriving Repr, DecidableEq

/-- The result-handling tail of `DenoJSDomJSI.execute`: run the process via
`_run_deno` (propagating its failure), then decode its output with
`json.loads`; a decoding failure raises an `ExtractorError` embedding the raw
output text.  `json.loads` is Python stdlib, abstracted as the `parse`
argument (`none` = `JSONDecodeError`). -/
def execute_dom_result (parse : String → Option DenoData) (stdout stderr : String)
    (returncode : Int) : Except String DenoData :=
  match (run_deno stdout stderr returncode).result with
  | .error e => .error e
  | .ok result =>
    match parse result with
    | none => .error ("Failed to parse JSON output from Deno: " ++ result)
    | some data => .ok data

/-- C6: when the process exits zero but its (stripped) output does not decode
as JSON, DOM-mode execution fails with an error embedding that raw output
text. -/
theorem C6_parse_failure (parse : String → Option DenoData) (stdout stderr : String)
    (returncode : Int) (hrc : returncode = 0) (hp : parse stdout.trim = none) :
    ∃ p, execute_dom_result parse stdout stderr returncode
      = .error (p ++ stdout.trim) := by
  subst hrc
  refine ⟨"Failed to parse JSON output from Deno: ", ?_⟩
  by_cases hs : stderr = "" <;> simp [execute_dom_result, run_deno, hs, hp]

/-- C6 witness: a concrete zero-exit run whose output "nope" cannot be decoded
yields an error embedding "nope". -/
theorem C6_parse_failure_witness :
    ∃ p, execute_dom_result (fun _ => none) "nope" "" 0 = .error (p ++ "nope".trim) :=
  C6_parse_failure (fun _ => none) "nope" "" 0 rfl rfl

/-- Match a literal character sequence at the head of the input, returning the
remainder on success. -/
def dropLit : List Char → List Char → Option (List Char)
  | [], l => some l
  | _ :: _, [] => none
  | p :: ps, x :: xs => if x = p then dropLit ps xs else none

/-- One character of the slug class `[a-zA-Z0-9\-]` of `FaulioLiveIE._VALID_URL`. -/
def isSlugChar (c : Char) : Bool :=
  c.isAlpha || c.isDigit || c == '-'

/-- The `(?P<domain>aloula\.sba\.sa|maraya\.sba\.net\.ae)/` alternation of
`_VALID_URL` (the branches are prefix-disjoint, so first-match is faithful). -/
def matchDomain (l : List Char) : Option (String × List Char) :=
  match dropLit "aloula.sba.sa/".data l with
  | some rest => some ("aloula.sba.sa", rest)
  | none =>
    match dropLit "maraya.sba.net.ae/".data l with
    | some rest => some ("maraya.sba.net.ae", rest)
    | none => none

/-- `re.match` of `FaulioLiveIE._VALID_URL`
`https?://(?P<domain>...)/(?:en/)?live/(?P<faulio_url>[a-zA-Z0-9\-]+)`
anchored at the start, trailing input ignored (the slug group is the maximal
run of slug characters, at least one).  The optional `s` of `https?` and the
optional `en/` are deterministic because the follow-sets are disjoint. -/
def matchValidUrl (url : String) : Option (String × String) :=
  (dropLit "http".data url.data).bind fun l1 =>
  (match l1 with
   | 's' :: r => dropLit "://".data r
   | r => dropLit "://".data r).bind fun l2 =>
  (matchDomain l2).bind fun dr =>
  let rest := match dropLit "en/".data dr.2 with
    | some r => r
    | none => dr.2
  (dropLit "live/".data rest).bind fun l3 =>
  let slug := l3.takeWhile isSlugChar
  if slug.isEmpty then none else some (dr.1, String.mk slug)

/-- Attempt of `re.search(r'TRANSLATIONS_API_URL\s*:\s*"(https?://[^"]+)"', ...)`
at one fixed position: the literal marker, optional whitespace, `:`, optional
whitespace, `"`, then the captured group `https?://[^"]+` up to the closing
quote.  (`Char.isWhitespace` stands for `\s`.) -/
def matchApiAt (l : List Char) : Option String :=
  (dropLit "TRANSLATIONS_API_URL".data l).bind fun l1 =>
  match l1.dropWhile Char.isWhitespace with
  | ':' :: l3 =>
    (match l3.dropWhile Char.isWhitespace with
     | '"' :: l5 =>
       (dropLit "http".data l5).bind fun l6 =>
       (match l6 with
        | 's' :: r =>
          (dropLit "://".data r).map (fun r2 => (("https://" : String), r2))
        | r =>
          (dropLit "://".data r).map (fun r2 => (("http://" : String), r2))).bind
       fun pr =>
         let body := pr.2.takeWhile (fun c => !(c == '"'))
         let rest := pr.2.dropWhile (fun c => !(c == '"'))
         if body.isEmpty then none
         else
           match rest with
           | '"' :: _ => some (pr.1 ++ String.mk body)
           | _ => none
     | _ => none)
  | _ => none

/-- `re.search` of the `TRANSLATIONS_API_URL` pattern: the captured API base of
the leftmost match position, scanning left to right. -/
def findApiUrl : List Char → Option String
  | [] => none
  | c :: rest =>
    match matchApiAt (c :: rest) with
    | some u => some u
    | none => findApiUrl rest

/-- A scalar JSON value as Python sees it (the channel API uses both numbers
and strings in `id`/`url`). -/
inductive PyVal where
  | int (n : Int)
  | str (s : String)
  deriving Repr, DecidableEq

/-- Python `str()` of an optional scalar: `str(None)` is the string "None". -/
def pyStr : Option PyVal → String
  | none => "None"
  | some (.int n) => toString n
  | some (.str s) => s

/-- One entry of the `GET <api_base>/channels` array, restricted to the keys
`_real_extract` reads; `streams_hls` is `traverse_obj(c, ('streams', 'hls'))`. -/
structure Channel where
  id : Option PyVal
  url : Option PyVal
  title : Option String
  description : Option String
  streams_hls : Option String
  deriving Repr, DecidableEq

/-- Python truthiness of the channel dict (`if not channel_json`), over the
keys this extractor reads: a dict with none of them is modelled as empty,
hence falsy. -/
def Channel.truthy (c : Channel) : Bool :=
  c.id.isSome || c.url.isSome || c.title.isSome || c.description.isSome ||
    c.streams_hls.isSome

/-- The info dict returned by `FaulioLiveIE._real_extract` (format extraction
from the HLS manifest is delegated to the host framework and carried here as
the manifest URL). -/
structure ExtractResult where
  id : String
  title : Option String
  description : Option String
  hls_url : String
  referer : String
  origin : String
  is_live : Bool
  deriving Repr, DecidableEq

/-- `FaulioLiveIE._real_extract`: match the URL, find the API base marker in
the fetched page, fetch `<api_base>/channels`, pick the first channel whose
`str(c.get('url'))` equals the slug, require it truthy and its HLS URL truthy,
and build the result with Referer/Origin derived from the matched domain.
`webpage` and the channel list (indexed by the requested URL) model the two
HTTP round-trips done by the host framework. -/
def real_extract (url webpage : String) (fetch : String → List Channel) :
    Except String ExtractResult :=
  match matchValidUrl url with
  | none => .error "unsupported URL"
  | some (domain, faulio_url) =>
    match findApiUrl webpage.data with
    | none => .error "Could not find TRANSLATIONS_API_URL in the page"
    | some api_base =>
      match (fetch (api_base ++ "/channels")).find? (fun c => pyStr c.url == faulio_url) with
      | none => .error ("Channel \"" ++ faulio_url ++ "\" not found in API")
      | some channel_json =>
        if !channel_json.truthy then
          .error ("Channel \"" ++ faulio_url ++ "\" not found in API")
        else
          match channel_json.streams_hls with
          | none => .error ("HLS stream not found for channel \"" ++ faulio_url ++ "\"")
          | some hls =>
            if hls == "" then
              .error ("HLS stream not found for channel \"" ++ faulio_url ++ "\"")
            else
              .ok { id := pyStr channel_json.id
                    title := channel_json.title
                    description := channel_json.description
                    hls_url := hls
                    referer := "https://" ++ domain ++ "/"
                    origin := "https://" ++ domain
                    is_live := true }

/-- C7: resolving the documented example URL against a page embedding
`TRANSLATIONS_API_URL: "https://api.example/v1"` and a channel list holding
`{"id": 2, "url": "saudiatv", "title": "T", "streams": {"hls": ...}}` yields
id "2" (the number stringified), title "T", Referer `https://aloula.sba.sa/`
and Origin `https://aloula.sba.sa`. -/
theorem C7_example_extraction :
    real_extract "https://aloula.sba.sa/live/saudiatv"
        "var cfg; TRANSLATIONS_API_URL: \"https://api.example/v1\"; more"
        (fun u => if u == "https://api.example/v1/channels" then
            [⟨some (.int 2), some (.str "saudiatv"), some "T", none, some "https://x/m.m3u8"⟩]
          else [])
      = .ok ⟨"2", some "T", none, "https://x/m.m3u8",
          "https://aloula.sba.sa/", "https://aloula.sba.sa", true⟩ := by
  rfl

/-- C8 (amended): for every accepted URL, `_real_extract` fails (with an
`ExtractorError`) exactly when: the `TRANSLATIONS_API_URL` marker is absent
from the fetched page; or no channel matches the slug under Python `str()`
coercion of its `url` field (`str(c.get('url')) == faulio_url`, so a channel
with no `url` key matches the slug "None"); or the first matching channel has
no HLS stream URL (the `streams.hls` entry is absent or empty). -/
theorem C8_notfound_exactly (url webpage : String) (fetch : String → List Channel)
    (domain slug : String) (hm : matchValidUrl url = some (domain, slug)) :
    (∃ e, real_extract url webpage fetch = .error e) ↔
      (findApiUrl webpage.data = none ∨
       ∃ api_base, findApiUrl webpage.data = some api_base ∧
         ((fetch (api_base ++ "/channels")).find? (fun c => pyStr c.url == slug) = none ∨
          ∃ c, (fetch (api_base ++ "/channels")).find? (fun c => pyStr c.url == slug)
              = some c ∧
            (c.streams_hls = none ∨ c.streams_hls = some ""))) := by
  simp only [real_extract, hm]
  cases hapi : findApiUrl webpage.data with
  | none => simp [hapi]
  | some api_base =>
    cases hfind : (fetch (api_base ++ "/channels")).find? (fun c => pyStr c.url == slug) with
    | none =>
      simp [hfind]
      intro x hx
      simpa using List.find?_eq_none.mp hfind x hx
    | some c =>
      by_cases ht : c.truthy = true
      · cases hhls : c.streams_hls with
        | none => simp [hfind, ht, hhls]
        | some s =>
          by_cases hs : s = ""
          · subst hs
            simp [hfind, ht, hhls]
          · simp [hfind, ht, hhls, hs]
            exact ⟨c, List.mem_of_find?_eq_some hfind, by simpa using List.find?_some hfind⟩
      · have hnone : c.streams_hls = none := by
          by_contra hne
          exact ht (by simp [Channel.truthy, Option.ne_none_iff_isSome.mp hne])
        simp [hfind, ht, hnone]

/-- C8 witness: a page without the marker makes the resolver fail. -/
theorem C8_notfound_exactly_witness :
    ∃ e, real_extract "https://aloula.sba.sa/live/saudiatv" "no marker here"
        (fun _ => []) = .error e :=
  (C8_notfound_exactly "https://aloula.sba.sa/live/saudiatv" "no marker here"
    (fun _ => []) "aloula.sba.sa" "saudiatv" rfl).mpr (Or.inl rfl)

/-- C8 counterexample: for the accepted URL with slug "None" and a channel
list whose single entry has no `url` field at all (so no channel has a url
equal to the slug), the claim demands a NotFound error, but the code matches
that entry via `str(None) == "None"` and returns its stream successfully. -/
theorem C8_counterexample :
    real_extract "https://aloula.sba.sa/live/None"
        "TRANSLATIONS_API_URL: \"https://api.example/v1\""
        (fun u => if u == "https://api.example/v1/channels" then
            [⟨some (.int 7), none, some "t", none, some "https://x/m.m3u8"⟩]
          else [])
      = .ok ⟨"7", some "t", none, "https://x/m.m3u8",
          "https://aloula.sba.sa/", "https://aloula.sba.sa", true⟩ ∧
    ((fun u => if u == "https://api.example/v1/channels" then
            [(⟨some (.int 7), none, some "t", none, some "https://x/m.m3u8"⟩ : Channel)]
          else []) "https://api.example/v1/channels").all
        (fun c => c.url.isNone) = true :=
  ⟨rfl, rfl⟩

theorem string_append_assoc (a b c : String) : a ++ b ++ c = a ++ (b ++ c) := by
  apply String.ext
  simp [String.data_append, List.append_assoc]

/-- Scan for the matching `</script>` close tag: the body before it and the
remainder after it. -/
def closeSplit : List Char → Option (List Char × List Char)
  | [] => none
  | c :: rest =>
    match dropLit "</script>".data (c :: rest) with
    | some after => some ([], after)
    | none =>
      match closeSplit rest with
      | some p => some (c :: p.1, p.2)
      | none => none

/-- Fuelled scan splitting inline `<script>...</script>` blocks out of an HTML
text, keeping the surrounding text; an unclosed open tag is left in place.
The fuel (the input length suffices) only bounds the recursion. -/
def splitScripts : Nat → List Char → List Char × List (List Char)
  | 0, l => (l, [])
  | _ + 1, [] => ([], [])
  | fuel + 1, c :: rest =>
    match dropLit "<script>".data (c :: rest) with
    | some after =>
      match closeSplit after with
      | some p =>
        let q := splitScripts fuel p.2
        (q.1, p.1 :: q.2)
      | none => (c :: rest, [])
    | none =>
      let q := splitScripts fuel rest
      (c :: q.1, q.2)

/-- Modelled from the spec: "Inline script tags present in the supplied HTML
are extracted, stripped from the HTML before DOM construction, and separately
executed" — the helper `extract_script_tags` lives in
`yt_dlp/jsinterp/_helper.py`, which is outside `src/`.  It returns the HTML
with the inline script blocks removed together with the script bodies in
source order. -/
def extract_script_tags (html : String) : String × List String :=
  (String.mk (splitScripts html.data.length html.data).1,
   (splitScripts html.data.length html.data).2.map String.mk)

/-- The failure-swallowing guard wrapped around each inline script:
`'try { %s } catch (e) {}' % script`. -/
def guardScript (s : String) : String :=
  "try \x7b " ++ s ++ " \x7d catch (e) \x7b\x7d"

/-- `'\n'.join('try { %s } catch (e) {}' % script for script in inline_scripts)`. -/
def wrapperScripts : List String → String
  | [] => ""
  | [s] => guardScript s
  | s :: rest => guardScript s ++ ("\n" ++ wrapperScripts rest)

/-- JSON string escaping as performed by `json.dumps` on the characters that
matter here (backslash, quote and the common control characters). -/
def jsonEscape (s : String) : String :=
  String.mk (s.data.foldr
    (fun c acc =>
      match c with
      | '"' => '\\' :: '"' :: acc
      | '\\' => '\\' :: '\\' :: acc
      | '\n' => '\\' :: 'n' :: acc
      | '\r' => '\\' :: 'r' :: acc
      | '\t' => '\\' :: 't' :: acc
      | c => c :: acc) [])

/-- `json.dumps` of a string. -/
def jsonDumps (s : String) : String := "\"" ++ jsonEscape s ++ "\""

/-- JSON rendering of an optional string field (`None` becomes `null`). -/
def jsonOfOptStr : Option String → String
  | none => "null"
  | some s => jsonDumps s

/-- JSON rendering of an optional integer field. -/
def jsonOfOptInt : Option Int → String
  | none => "null"
  | some n => toString n

/-- JSON rendering of an optional boolean field. -/
def jsonOfOptBool : Option Bool → String
  | none => "null"
  | some true => "true"
  | some false => "false"

/-- `json.dumps` of one serialized cookie record (insertion order of the dict
literal in `serialize_cookie`). -/
def cookieRecordJson (r : CookieRecord) : String :=
  "\x7b\"key\": " ++ jsonOfOptStr r.key ++ ", \"value\": " ++ jsonOfOptStr r.value ++
    ", \"domain\": " ++ jsonOfOptStr r.domain ++ ", \"expires\": " ++ jsonOfOptInt r.expires ++
    ", \"hostOnly\": " ++ jsonOfOptBool r.hostOnly ++ ", \"secure\": " ++
    jsonOfOptBool r.secure ++ ", \"path\": " ++ jsonOfOptStr r.path ++ "\x7d"

/-- The JSON text returned by `serialize_cookie`:
`json.dumps({'cookies': [...]})`. -/
def serializeCookieJson (cookiejar : Option (List Cookie)) (hostname : Option String) : String :=
  "\x7b\"cookies\": [" ++
    String.intercalate ", " ((serialize_cookie cookiejar hostname).map cookieRecordJson) ++
    "]\x7d"

/-- The DOM-setup section of the f-string template of `DenoJSDomJSI.execute`:
everything from the init script through the end of the setup IIFE — importing
the DOM library, deserializing the cookie jar, building the JSDOM document
from the (script-stripped) HTML, copying window properties onto the global
object, re-applying the navigator override, pinning screen/layout values,
setting `document.domain`, deleting `window.jsdom`, and preparing the
console-capturing callback. -/
def scriptSetup (init_script jsdom_url callback_varname : String)
    (cookiejar : Option (List Cookie)) (hostname url : Option String)
    (html override_js : String) : String :=
  init_script ++ ";\n        import jsdom from \"" ++ jsdom_url ++ "\";\n        let " ++
    callback_varname ++ " = (() => \x7b\n            const jar = jsdom.CookieJar.deserializeSync(" ++
    jsonDumps (serializeCookieJson cookiejar hostname) ++
    ");\n            const dom = new jsdom.JSDOM(" ++ jsonDumps html ++ ", \x7b\n                " ++
    (match url with
     | some u => "url: " ++ jsonDumps u ++ ","
     | none => "") ++
    "\n                cookieJar: jar,\n                pretendToBeVisual: true,\n            \x7d);\n" ++
    "            Object.keys(dom.window).filter(key => ![\x27atob\x27, \x27btoa\x27, \x27crypto\x27, \x27location\x27].includes(key))\n" ++
    "            .filter(key => !(window.location? [] : [\x27sessionStorage\x27, \x27localStorage\x27]).includes(key))\n" ++
    "            .forEach((key) => \x7b\n                try \x7bglobalThis[key] = dom.window[key]\x7d catch (e) \x7b console.error(e) \x7d\n            \x7d);\n            " ++
    override_js ++ ";\n\n" ++
    "            window.screen = \x7b\n                availWidth: 1920,\n                availHeight: 1040,\n                width: 1920,\n                height: 1080,\n                colorDepth: 24,\n                isExtended: true,\n                onchange: null,\n                orientation: \x7bangle: 0, type: \x27landscape-primary\x27, onchange: null\x7d,\n                pixelDepth: 24,\n            \x7d\n" ++
    "            Object.defineProperty(document.body, \x27clientWidth\x27, \x7bvalue: 1903\x7d);\n" ++
    "            Object.defineProperty(document.body, \x27clientHeight\x27, \x7bvalue: 2000\x7d);\n" ++
    "            document.domain = location?.hostname;\n\n" ++
    "            delete window.jsdom;\n            const origLog = console.log;\n            console.log = () => \x7b\x7d;\n            console.info = () => \x7b\x7d;\n" ++
    "            return () => \x7b\n                const stdout = [];\n                console.log = (...msg) => stdout.push(msg.map(m => \x27\x27 + m).join(\x27 \x27));\n" ++
    "                return () => \x7b origLog(JSON.stringify(\x7b\n                    stdout: stdout.join(\x27\\n\x27), cookies: jar.serializeSync().cookies\x7d)); \x7d\n            \x7d\n        \x7d)();\n        "

/-- The activation line between the inline scripts and the caller script:
the callback swap that begins console capture, and the opening of the
`try` around the caller script. -/
def scriptActivate (callback_varname : String) : String :=
  "\n        " ++ callback_varname ++ " = " ++ callback_varname ++
    "(); // begin to capture console.log\n        try \x7b\n            "

/-- The closing of the template: the `finally` that always emits the JSON
result object. -/
def scriptFinally (callback_varname : String) : String :=
  "\n        \x7d finally \x7b\n            " ++ callback_varname ++ "();\n        \x7d\n        "

/-- The full generated DOM-mode script, with the interpolation slots of the
source template made explicit: DOM setup, then the guarded inline scripts,
then the console-capture activation, then the caller script inside
`try`/`finally`. -/
def buildScript (init_script jsdom_url callback_varname : String)
    (cookiejar : Option (List Cookie)) (hostname url : Option String)
    (html override_js : String) (inline_scripts : List String) (jscode : String) : String :=
  scriptSetup init_script jsdom_url callback_varname cookiejar hostname url html override_js ++
    (wrapperScripts inline_scripts ++
      (scriptActivate callback_varname ++ (jscode ++ scriptFinally callback_varname)))

/-- The script-construction part of `DenoJSDomJSI.execute`: the supplied HTML
is split into stripped HTML and inline scripts, and both feed the template. -/
def execute_script (init_script jsdom_url callback_varname override_js : String)
    (cookiejar : Option (List Cookie)) (hostname url : Option String)
    (html jscode : String) : String :=
  buildScript init_script jsdom_url callback_varname cookiejar hostname url
    (extract_script_tags html).1 override_js (extract_script_tags html).2 jscode

/-- C9: when the supplied HTML yields two inline script blocks, the generated
DOM-mode script contains, after the DOM-setup section and before the
caller-supplied script, the first block and then the second block in source
order, each wrapped in its own `try ... catch` failure-swallowing guard, with
the console-capture activation in between the guards and the caller script. -/
theorem C9_inline_scripts (init_script jsdom_url callback_varname override_js : String)
    (cookiejar : Option (List Cookie)) (hostname url : Option String)
    (html jscode s1 s2 : String)
    (h : (extract_script_tags html).2 = [s1, s2]) :
    ∃ pre mid post,
      execute_script init_script jsdom_url callback_varname override_js
          cookiejar hostname url html jscode
        = pre ++ (guardScript s1 ++ ("\n" ++ (guardScript s2 ++ (mid ++ (jscode ++ post))))) ∧
      pre = scriptSetup init_script jsdom_url callback_varname cookiejar hostname url
          (extract_script_tags html).1 override_js ∧
      mid = scriptActivate callback_varname ∧
      guardScript s1 = "try \x7b " ++ s1 ++ " \x7d catch (e) \x7b\x7d" ∧
      guardScript s2 = "try \x7b " ++ s2 ++ " \x7d catch (e) \x7b\x7d" := by
  refine ⟨scriptSetup init_script jsdom_url callback_varname cookiejar hostname url
      (extract_script_tags html).1 override_js,
    scriptActivate callback_varname, scriptFinally callback_varname,
    ?_, rfl, rfl, rfl, rfl⟩
  simp only [execute_script, buildScript, h, wrapperScripts]
  simp [string_append_assoc]

/-- C9 witness: a concrete HTML document with two inline scripts. -/
theorem C9_inline_scripts_witness :
    ∃ pre mid post,
      execute_script "init;" "https://esm.sh/v135/jsdom" "cbvar" "ov" none none none
          "<p>x</p><script>a()</script><script>b()</script>" "caller()"
        = pre ++ (guardScript "a()" ++ ("\n" ++ (guardScript "b()" ++
            (mid ++ ("caller()" ++ post))))) ∧
      pre = scriptSetup "init;" "https://esm.sh/v135/jsdom" "cbvar" none none none
          (extract_script_tags "<p>x</p><script>a()</script><script>b()</script>").1 "ov" ∧
      mid = scriptActivate "cbvar" ∧
      guardScript "a()" = "try \x7b a() \x7d catch (e) \x7b\x7d" ∧
      guardScript "b()" = "try \x7b b() \x7d catch (e) \x7b\x7d" :=
  C9_inline_scripts "init;" "https://esm.sh/v135/jsdom" "cbvar" "ov" none none none
    "<p>x</p><script>a()</script><script>b()</script>" "caller()" "a()" "b()" (by rfl)

/-- Python truthiness of the cookiejar argument (`if cookiejar and ...`):
`CookieJar` defines `__len__`, so an empty jar is falsy like an absent one. -/
def jarTruthy : Option (List Cookie) → Bool
  | none => false
  | some l => !l.isEmpty

/-- The cookiejar handling of `DenoJSDomJSI.execute` around one call: the
warning-and-reset of a jar supplied without URL scope, the records serialized
into the generated script, and the caller's jar after the output cookies are
applied (result components: warnings, serialized records, final jar). -/
def execute_cookie_flow (cookiejar : Option (List Cookie)) (url : Option String)
    (hostname : Option String) (output : List CookieRecord) :
    List String × List CookieRecord × Option (List Cookie) :=
  let warned := jarTruthy cookiejar && url.isNone
  let effective := if warned then none else cookiejar
  ((if warned then ["No valid url scope provided, cookiejar is not applied"] else []),
   serialize_cookie effective hostname,
   match effective with
   | none => cookiejar
   | some jar => apply_cookies (some jar) output)

/-- C10 (amended): supplying a non-empty cookiejar with no URL scope makes the
bridge report the warning and then ignore the jar entirely: no record of it is
serialized into the generated script, no output cookie is merged back, and the
caller's jar is returned unchanged. -/
theorem C10_no_scope_ignores_cookiejar (jar : List Cookie) (hostname : Option String)
    (output : List CookieRecord) (hjar : jar ≠ []) :
    execute_cookie_flow (some jar) none hostname output
      = (["No valid url scope provided, cookiejar is not applied"], [], some jar) := by
  have ht : jarTruthy (some jar) = true := by
    cases jar with
    | nil => exact absurd rfl hjar
    | cons a t => rfl
  simp [execute_cookie_flow, ht, serialize_cookie]

/-- C10 witness: a concrete non-empty jar with no URL scope, against a
non-empty process output. -/
theorem C10_no_scope_ignores_cookiejar_witness :
    execute_cookie_flow (some [⟨"n", "v", "d.com", false, "/", false, none⟩]) none (some "h")
        [⟨some "k", some "v", some "x.com", none, none, none, none⟩]
      = (["No valid url scope provided, cookiejar is not applied"], [],
         some [⟨"n", "v", "d.com", false, "/", false, none⟩]) :=
  C10_no_scope_ignores_cookiejar [⟨"n", "v", "d.com", false, "/", false, none⟩] (some "h")
    [⟨some "k", some "v", some "x.com", none, none, none, none⟩] (by decide)

/-- C10 counterexample: an empty — but supplied — cookiejar with no URL scope
triggers no warning at all, because `if cookiejar and not self._url` is false
for a falsy (empty) jar; the claim requires a warning for every supplied
cookiejar.  (The jar is still ignored and left unchanged, and nothing from the
process output is merged, so only the warning part fails.) -/
theorem C10_counterexample :
    execute_cookie_flow (some ([] : List Cookie)) none (some "h")
        [⟨some "k", some "v", some "x.com", none, none, none, none⟩]
      = ([], [], some []) := by
  decide

end Ytdl
